import Mathlib

/-!
Shallow embedding of the ESP integration API (TypeScript/Express service)
into Lean 4, together with theorems about its claimed properties.

The embedding follows the source files:
  src/services/esp-service.factory.ts   (key-format validation, data-center extraction)
  src/services/mailchimp.service.ts     (MailchimpService and GetResponseService adapters)
  src/controllers/integration.controller.ts (orchestration: create, lists, delete, test)
  src/models/Integration.ts             (credential record schema and toJSON transform)

Conventions of the embedding:
  - The document store is a plain list of integration records; mongoose
    queries become list operations (find?, filter, map).
  - Timestamps are naturals.
  - Outbound HTTP outcomes are parameters of the orchestration functions
    (an Except value standing for the resolved or rejected promise).
  - JavaScript falsiness of the empty string is modelled explicitly where
    the source relies on it (the logical-or defaulting idiom).
-/

namespace ESPApi

/-- The AppError class of src/middleware/errorHandler.ts:
message, HTTP status code and a stable machine-readable code string. -/
structure AppError where
  message : String
  statusCode : Nat
  code : String
deriving DecidableEq

/-- JavaScript idiom `x || default` applied to an optional string field:
both a missing field and an empty string fall through to the default. -/
def jsOrElse (o : Option String) (d : String) : String :=
  match o with
  | some s => if s = "" then d else s
  | none => d

/-! ## ESPServiceFactory (src/services/esp-service.factory.ts) -/

/-- Character class `[a-fA-F0-9]` of the Mailchimp key regex. -/
def isHexChar (c : Char) : Bool :=
  c.isDigit || (('a' ≤ c) && (c ≤ 'f')) || (('A' ≤ c) && (c ≤ 'F'))

/-- Character class `[a-zA-Z0-9]` of the GetResponse key regex. -/
def isAlphanumChar (c : Char) : Bool :=
  c.isAlpha || c.isDigit

/-- The regex `^[a-fA-F0-9]{32}-us\d+$`: a 32-character hexadecimal
secret, a dash, the literal `us`, then one or more digits. -/
def matchesMailchimpKeyFormat (s : String) : Bool :=
  let cs := s.toList
  decide ((cs.take 32).length = 32) && (cs.take 32).all isHexChar &&
    (match cs.drop 32 with
     | '-' :: 'u' :: 's' :: rest => (!rest.isEmpty) && rest.all Char.isDigit
     | _ => false)

/-- The regex `^[a-zA-Z0-9]{20,}$`: alphanumeric, at least 20 characters. -/
def matchesGetResponseKeyFormat (s : String) : Bool :=
  decide (20 ≤ s.toList.length) && s.toList.all isAlphanumChar

/-- ESPServiceFactory.validateApiKeyFormat: provider-specific syntactic
key check; unknown providers always fail. -/
def ESPServiceFactory.validateApiKeyFormat (provider apiKey : String) : Bool :=
  if provider = "mailchimp" then matchesMailchimpKeyFormat apiKey
  else if provider = "getresponse" then matchesGetResponseKeyFormat apiKey
  else false

/-- ESPServiceFactory.extractDataCenterFromMailchimpKey: split on the dash;
exactly two parts yields the second part, anything else yields none. -/
def ESPServiceFactory.extractDataCenterFromMailchimpKey (apiKey : String) : Option String :=
  match apiKey.splitOn "-" with
  | [_, dc] => some dc
  | _ => none

/-! ## Upstream error shape and the adapter error translation -/

/-- The part of an axios rejection the adapters inspect: the optional
HTTP response (status plus the optional `detail` and `message` fields of
its body) and the optional transport error code. -/
structure UpstreamResponse where
  status : Nat
  detail : Option String
  message : Option String
deriving DecidableEq

/-- An upstream failure as seen by handleApiError: a response may be
present (the server answered with an error status) or absent (transport
failure), and axios may attach an error code such as ECONNABORTED. -/
structure UpstreamError where
  response : Option UpstreamResponse
  code : Option String
deriving DecidableEq

/-- MailchimpService.handleApiError: translate an upstream failure into
a typed AppError. The switch on the response status is modelled as an
equality chain; the default branch carries the upstream status and the
body detail (with JavaScript logical-or defaulting). -/
def MailchimpService.handleApiError (error : UpstreamError) : AppError :=
  match error.response with
  | some r =>
      if r.status = 401 then
        ⟨"Invalid Mailchimp API key or insufficient permissions", 401, "MAILCHIMP_UNAUTHORIZED"⟩
      else if r.status = 404 then
        ⟨"Mailchimp resource not found", 404, "MAILCHIMP_NOT_FOUND"⟩
      else if r.status = 429 then
        ⟨"Mailchimp API rate limit exceeded", 429, "MAILCHIMP_RATE_LIMIT"⟩
      else
        ⟨jsOrElse r.detail "Mailchimp API error", r.status, "MAILCHIMP_API_ERROR"⟩
  | none =>
      if error.code = some "ECONNABORTED" then
        ⟨"Mailchimp API request timeout", 408, "MAILCHIMP_TIMEOUT"⟩
      else
        ⟨"Mailchimp service unavailable", 503, "MAILCHIMP_SERVICE_ERROR"⟩

/-- GetResponseService.handleApiError: same structure as the Mailchimp
translation, with an extra explicit 400 case and the `message` body field
in place of `detail`. -/
def GetResponseService.handleApiError (error : UpstreamError) : AppError :=
  match error.response with
  | some r =>
      if r.status = 401 then
        ⟨"Invalid GetResponse API key or insufficient permissions", 401, "GETRESPONSE_UNAUTHORIZED"⟩
      else if r.status = 404 then
        ⟨"GetResponse resource not found", 404, "GETRESPONSE_NOT_FOUND"⟩
      else if r.status = 429 then
        ⟨"GetResponse API rate limit exceeded", 429, "GETRESPONSE_RATE_LIMIT"⟩
      else if r.status = 400 then
        ⟨jsOrElse r.message "Bad request to GetResponse API", 400, "GETRESPONSE_BAD_REQUEST"⟩
      else
        ⟨jsOrElse r.message "GetResponse API error", r.status, "GETRESPONSE_API_ERROR"⟩
  | none =>
      if error.code = some "ECONNABORTED" then
        ⟨"GetResponse API request timeout", 408, "GETRESPONSE_TIMEOUT"⟩
      else
        ⟨"GetResponse service unavailable", 503, "GETRESPONSE_SERVICE_ERROR"⟩

/-! ## validateConnection (both adapters) -/

/-- Account payload of the Mailchimp root endpoint, the fields the
adapter reads from response.data. -/
structure MailchimpAccount where
  account_name : String
  email : String
  role : String
  account_id : String
deriving DecidableEq

/-- Account payload of the GetResponse accounts endpoint. -/
structure GetResponseAccount where
  accountId : String
  email : String
  firstName : String
  lastName : String
  phone : String
  state : String
  zipCode : String
deriving DecidableEq

/-- Provider-specific normalized account information as assembled by the
two validateConnection implementations. -/
inductive AccountInfo
  | mailchimp (accountName email role accountId : String)
  | getresponse (accountId email firstName lastName phone state zipCode : String)
deriving DecidableEq

/-- ESPValidationResult of src/types/index.ts. -/
structure ESPValidationResult where
  isValid : Bool
  provider : String
  error : Option String
  accountInfo : Option AccountInfo
deriving DecidableEq

/-- MailchimpService.validateConnection: the upstream outcome of the
authenticated GET on the root endpoint is the argument (errors already
translated by the response interceptor into an AppError via
handleApiError). The function catches every failure and returns a flag
instead of raising. -/
def MailchimpService.validateConnection
    (upstream : Except UpstreamError MailchimpAccount) : ESPValidationResult :=
  match upstream with
  | .ok a =>
      { isValid := true, provider := "mailchimp", error := none,
        accountInfo := some (.mailchimp a.account_name a.email a.role a.account_id) }
  | .error e =>
      { isValid := false, provider := "mailchimp",
        error := some (MailchimpService.handleApiError e).message,
        accountInfo := none }

/-- GetResponseService.validateConnection, same shape as the Mailchimp
variant over the accounts endpoint. -/
def GetResponseService.validateConnection
    (upstream : Except UpstreamError GetResponseAccount) : ESPValidationResult :=
  match upstream with
  | .ok a =>
      { isValid := true, provider := "getresponse", error := none,
        accountInfo := some (.getresponse a.accountId a.email a.firstName a.lastName
          a.phone a.state a.zipCode) }
  | .error e =>
      { isValid := false, provider := "getresponse",
        error := some (GetResponseService.handleApiError e).message,
        accountInfo := none }

/-! ## getLists (both adapters) -/

/-- An upstream collection that in JSON may arrive either as an array or
as a keyed mapping of records. -/
inductive ArrOrObj (α : Type)
  | arr (items : List α)
  | obj (entries : List (String × α))
deriving DecidableEq

/-- Raw Mailchimp list record: the fields requested by the adapter. -/
structure RawMailchimpList where
  id : String
  name : String
  stats_member_count : Option Nat
  subscribe_url_long : Option String
  date_created : Option String
deriving DecidableEq

/-- MailchimpList of src/types/index.ts. -/
structure MailchimpList where
  id : String
  name : String
  memberCount : Nat
  subscribeUrlLong : Option String
  dateCreated : Option String
deriving DecidableEq

/-- Raw GetResponse campaign record: the fields requested by the adapter. -/
structure RawCampaign where
  campaignId : String
  name : String
  description : Option String
  createdOn : Option String
deriving DecidableEq

/-- GetResponseList of src/types/index.ts. -/
structure GetResponseList where
  campaignId : String
  name : String
  description : String
  createdOn : Option String
deriving DecidableEq

/-- A JavaScript TypeError raised by calling an array method on a value
that is not an array. -/
inductive JsError
  | typeError
deriving DecidableEq

/-- The page size requested by MailchimpService.getLists for the second
request: the reported total bounded by the 1000-item API maximum. -/
def MailchimpService.listsRequestCount (totalItems : Nat) : Nat :=
  min totalItems 1000

/-- MailchimpService.getLists, applied to the `lists` field of the second
response body: the source calls Array.prototype.map on it directly
(`response.data.lists.map(...)`), so an array is normalized field by
field while a keyed mapping raises a TypeError (map is not a function on
a plain object), which the catch block rethrows. -/
def MailchimpService.getLists
    (listsField : ArrOrObj RawMailchimpList) : Except JsError (List MailchimpList) :=
  match listsField with
  | .arr items =>
      .ok (items.map fun l =>
        ⟨l.id, l.name, l.stats_member_count.getD 0, l.subscribe_url_long, l.date_created⟩)
  | .obj _ => .error .typeError

/-- GetResponseService.getLists, applied to the response body: the source
normalizes with `Array.isArray(response.data) ? response.data :
Object.values(response.data)` before mapping into the common shape. -/
def GetResponseService.getLists (data : ArrOrObj RawCampaign) : List GetResponseList :=
  let campaigns : List RawCampaign :=
    match data with
    | .arr items => items
    | .obj entries => entries.map Prod.snd
  campaigns.map fun c => ⟨c.campaignId, c.name, jsOrElse c.description "", c.createdOn⟩

/-! ## Credential records and the document store (src/models/Integration.ts) -/

/-- A persisted ESP integration record (ESPIntegration of
src/types/index.ts with the mongoose lifecycle timestamps). -/
structure Integration where
  _id : Nat
  provider : String
  apiKey : String
  dataCenter : Option String
  isActive : Bool
  lastVerified : Option Nat
  createdAt : Nat
  updatedAt : Nat
deriving DecidableEq

/-- The document store: the collection of integration records. -/
abbrev Store := List Integration

/-- ESPIntegrationModel.findOne with filter provider plus isActive true. -/
def findOneActive (store : Store) (provider : String) : Option Integration :=
  store.find? (fun r => r.provider == provider && r.isActive)

/-- ESPIntegrationModel.findById. -/
def findById (store : Store) (id : Nat) : Option Integration :=
  store.find? (fun r => r._id == id)

/-! ## Orchestration (src/controllers/integration.controller.ts) -/

/-- Outbound side effects of a controller run, used to state that no
adapter network call happens on an early-exit path. -/
inductive Event
  | adapterValidateConnection (provider : String)
deriving DecidableEq

/-- A request either sends a response, throws an AppError (rendered by
the error middleware), or lets a storage failure escape uncaught. -/
inductive ReqError
  | app (e : AppError)
  | storage
deriving DecidableEq

/-- The response data object literal of createESPIntegration (built field
by field; the apiKey is deliberately absent). -/
structure CreateData where
  id : Nat
  provider : String
  dataCenter : Option String
  isActive : Bool
  lastVerified : Option Nat
  createdAt : Nat
  updatedAt : Nat
  accountInfo : Option AccountInfo
deriving DecidableEq

/-- Result of one controller run: the HTTP outcome (a status code and
data on success), the store after the run, and the outbound calls made. -/
structure RunResult (α : Type) where
  result : Except ReqError (Nat × α)
  store : Store
  trace : List Event

/-- Projection of a stored record into the create response data. -/
def mkCreateData (r : Integration) (accountInfo : Option AccountInfo) : CreateData :=
  ⟨r._id, r.provider, r.dataCenter, r.isActive, r.lastVerified, r.createdAt, r.updatedAt,
    accountInfo⟩

/-- The 400 error thrown when a Mailchimp key has no extractable data
center. -/
def mailchimpKeyError : AppError :=
  ⟨"Invalid Mailchimp API key format. Expected format: xxxxxxxx-usXX",
    400, "INVALID_MAILCHIMP_KEY"⟩

/-- The data-center extraction step at the top of createESPIntegration:
only for mailchimp, extract the data center from the key; JavaScript
falsiness (`extractDataCenterFromMailchimpKey(apiKey) || undefined`)
turns an empty extracted string into a failure as well. -/
def dataCenterCheck (provider apiKey : String) : Except AppError (Option String) :=
  if provider = "mailchimp" then
    match ESPServiceFactory.extractDataCenterFromMailchimpKey apiKey with
    | some dc => if dc = "" then .error mailchimpKeyError else .ok (some dc)
    | none => .error mailchimpKeyError
  else .ok none

/-- IntegrationController.createESPIntegration.
Steps, in source order: for mailchimp, extract the data center from the
key (JavaScript falsiness turns an empty second part into a failure) and
fail 400 if absent; check the syntactic key format and fail 400 on
mismatch; only then construct the adapter and call validateConnection
(the outbound call event); on an invalid connection fail 401 without
persisting; otherwise update the existing active record for the provider
in place, or insert a fresh active record, and respond 200 or 201. The
connection outcome vres is passed as a parameter; it is only consulted
after the event is emitted. -/
def createESPIntegration (store : Store) (provider apiKey : String)
    (vres : ESPValidationResult) (now freshId : Nat) : RunResult CreateData :=
  match dataCenterCheck provider apiKey with
  | .error e => ⟨.error (.app e), store, []⟩
  | .ok dataCenter =>
      if ESPServiceFactory.validateApiKeyFormat provider apiKey = false then
        ⟨.error (.app ⟨s!"Invalid {provider} API key format", 400, "INVALID_API_KEY_FORMAT"⟩),
          store, []⟩
      else if vres.isValid = false then
        ⟨.error (.app ⟨jsOrElse vres.error "Failed to validate ESP connection",
            401, "ESP_CONNECTION_FAILED"⟩),
          store, [.adapterValidateConnection provider]⟩
      else
        match findOneActive store provider with
        | some existing =>
            let updated : Integration :=
              { existing with
                apiKey := apiKey, dataCenter := dataCenter,
                lastVerified := some now, updatedAt := now }
            let store' := store.map fun r =>
              if r._id = existing._id then
                { r with
                  apiKey := apiKey, dataCenter := dataCenter,
                  lastVerified := some now, updatedAt := now }
              else r
            ⟨.ok (200, mkCreateData updated vres.accountInfo), store',
              [.adapterValidateConnection provider]⟩
        | none =>
            let fresh : Integration :=
              ⟨freshId, provider, apiKey, dataCenter, true, some now, now, now⟩
            ⟨.ok (201, mkCreateData fresh vres.accountInfo), store ++ [fresh],
              [.adapterValidateConnection provider]⟩

/-- IntegrationController.deleteIntegration: load by id, 404 when absent,
otherwise flip isActive to false and save (soft delete, no removal). -/
def deleteIntegration (store : Store) (id : Nat) (now : Nat) : RunResult String :=
  match findById store id with
  | none =>
      ⟨.error (.app ⟨"Integration not found", 404, "INTEGRATION_NOT_FOUND"⟩), store, []⟩
  | some _ =>
      ⟨.ok (200, "Integration deactivated successfully"),
        store.map (fun r => if r._id = id then { r with isActive := false, updatedAt := now } else r),
        []⟩

/-- The response data object literal of testIntegration. -/
structure TestData where
  isValid : Bool
  provider : String
  error : Option String
  accountInfo : Option AccountInfo
  lastVerified : Option Nat
deriving DecidableEq

/-- IntegrationController.testIntegration: load by id (with the key
selected), 404 when absent or inactive, then call validateConnection; on
a valid outcome set lastVerified and save — the save is awaited outside
any try/catch, so a storage failure escapes instead of reaching the
response; finally respond 200 with the validation outcome. saveOk says
whether the save succeeds; vres is the adapter outcome. -/
def testIntegration (store : Store) (id : Nat) (vres : ESPValidationResult)
    (saveOk : Bool) (now : Nat) : RunResult TestData :=
  match findById store id with
  | none =>
      ⟨.error (.app ⟨"Integration not found or inactive", 404, "INTEGRATION_NOT_FOUND"⟩),
        store, []⟩
  | some r =>
      if r.isActive = false then
        ⟨.error (.app ⟨"Integration not found or inactive", 404, "INTEGRATION_NOT_FOUND"⟩),
          store, []⟩
      else if vres.isValid then
        if saveOk then
          ⟨.ok (200, ⟨vres.isValid, vres.provider, vres.error, vres.accountInfo, some now⟩),
            store.map (fun x => if x._id = id then { x with lastVerified := some now, updatedAt := now } else x),
            [.adapterValidateConnection r.provider]⟩
        else
          ⟨.error .storage, store, [.adapterValidateConnection r.provider]⟩
      else
        ⟨.ok (200, ⟨vres.isValid, vres.provider, vres.error, vres.accountInfo, r.lastVerified⟩),
          store, [.adapterValidateConnection r.provider]⟩

/-- One entry of the aggregate lists response: either a fetched mailing
list spread together with its provider and integration id, or the error
marker object pushed when that integration failed. -/
inductive ListEntry (α : Type)
  | item (l : α) (provider : String) (integrationId : Nat)
  | errEntry (provider : String) (integrationId : Nat) (error : String)
deriving DecidableEq

/-- The provider tag carried by either kind of entry. -/
def ListEntry.providerOf {α : Type} : ListEntry α → String
  | .item _ p _ => p
  | .errEntry p _ _ => p

/-- JavaScript Set-based deduplication, helper: drop elements already
seen, keeping the first occurrence of each new one. -/
def setDedupAux : List String → List String → List String
  | _, [] => []
  | seen, x :: xs =>
      if x ∈ seen then setDedupAux seen xs else x :: setDedupAux (x :: seen) xs

/-- JavaScript Set-based deduplication: keep the first occurrence of each
element, in order. -/
def setDedup (l : List String) : List String := setDedupAux [] l

/-- The data object of the aggregate lists response. -/
structure ListsData (α : Type) where
  lists : List (ListEntry α)
  totalCount : Nat
  providers : List String

/-- The filter of the aggregate fetch: all active records, further
narrowed by provider when the query names one. -/
def activeMatching (store : Store) (providerFilter : Option String) : List Integration :=
  store.filter fun r =>
    r.isActive && (match providerFilter with
                   | some p => r.provider == p
                   | none => true)

/-- The per-integration loop body of getESPLists: a successful getLists
contributes its lists tagged with provider and integration id; a failure
is caught and contributes the single error marker object. fetch is the
outcome of the adapter call for each integration. -/
def fetchEntries {α : Type} (fetch : Integration → Except AppError (List α)) :
    List Integration → List (ListEntry α)
  | [] => []
  | i :: rest =>
      (match fetch i with
       | .ok lists => lists.map fun l => ListEntry.item l i.provider i._id
       | .error _ => [ListEntry.errEntry i.provider i._id
            "Failed to fetch lists from this provider"]) ++ fetchEntries fetch rest

/-- IntegrationController.getESPLists: validate the optional provider
query value, load the matching active records (with the key selected),
fail 404 when none match, and otherwise collect the per-integration
results into one response whose totalCount is the length of the combined
array and whose providers field deduplicates the entry tags. -/
def getESPLists {α : Type} (store : Store) (providerFilter : Option String)
    (fetch : Integration → Except AppError (List α)) :
    Except AppError (Nat × ListsData α) :=
  let filterOk : Except AppError Unit :=
    match providerFilter with
    | some p =>
        if p = "mailchimp" || p = "getresponse" then .ok ()
        else .error ⟨"Invalid provider. Must be \"mailchimp\" or \"getresponse\"",
          400, "INVALID_PROVIDER"⟩
    | none => .ok ()
  match filterOk with
  | .error e => .error e
  | .ok _ =>
      let integrations := activeMatching store providerFilter
      if integrations.length = 0 then
        .error ⟨(match providerFilter with
                 | some p => s!"No active {p} integrations found"
                 | none => "No active integrations found"),
          404, "NO_INTEGRATIONS"⟩
      else
        let allLists := fetchEntries fetch integrations
        .ok (200, ⟨allLists, allLists.length,
          setDedup (allLists.map ListEntry.providerOf)⟩)

/-- IntegrationController.getIntegrations: all active records (default
projection, so without the key) and their count. -/
def getIntegrations (store : Store) : Nat × List Integration × Nat :=
  let integrations := store.filter (fun r => r.isActive)
  (200, integrations, integrations.length)

/-! ## Serialized representations (src/models/Integration.ts toJSON) -/

/-- A JSON value, as far as the serialized responses need. -/
inductive JVal
  | str (s : String)
  | num (n : Nat)
  | boolean (b : Bool)
  | null
  | payload (a : AccountInfo)

/-- The raw field set of a mongoose integration document before the
toJSON transform: the schema fields (apiKey present only when a query
opted in with select, mirroring select false on the schema path), the
lifecycle timestamps, and the version key. -/
def integrationRawJSON (r : Integration) (apiKeySelected : Bool) : List (String × JVal) :=
  [("_id", .num r._id), ("provider", .str r.provider)] ++
  (if apiKeySelected then [("apiKey", .str r.apiKey)] else []) ++
  [("dataCenter", match r.dataCenter with | some dc => .str dc | none => .null),
   ("isActive", .boolean r.isActive),
   ("lastVerified", match r.lastVerified with | some t => .num t | none => .null),
   ("createdAt", .num r.createdAt), ("updatedAt", .num r.updatedAt),
   ("__v", .num 0)]

/-- The toJSON transform of the schema: delete the version key and the
apiKey from the serialized object. -/
def toJSONTransform (fields : List (String × JVal)) : List (String × JVal) :=
  fields.filter fun kv => !(kv.1 == "__v" || kv.1 == "apiKey")

/-- Serialized form of a stored record as rendered into any response
body by res.json (mongoose applies the toJSON transform). -/
def Integration.toJSON (r : Integration) (apiKeySelected : Bool) : List (String × JVal) :=
  toJSONTransform (integrationRawJSON r apiKeySelected)

/-- Serialized form of the createESPIntegration response data literal. -/
def CreateData.toJSON (d : CreateData) : List (String × JVal) :=
  [("id", .num d.id), ("provider", .str d.provider),
   ("dataCenter", match d.dataCenter with | some dc => .str dc | none => .null),
   ("isActive", .boolean d.isActive),
   ("lastVerified", match d.lastVerified with | some t => .num t | none => .null),
   ("createdAt", .num d.createdAt), ("updatedAt", .num d.updatedAt),
   ("accountInfo", match d.accountInfo with | some a => .payload a | none => .null)]

/-- Serialized form of the testIntegration response data literal. -/
def TestData.toJSON (d : TestData) : List (String × JVal) :=
  [("isValid", .boolean d.isValid), ("provider", .str d.provider),
   ("error", match d.error with | some e => .str e | none => .null),
   ("accountInfo", match d.accountInfo with | some a => .payload a | none => .null),
   ("lastVerified", match d.lastVerified with | some t => .num t | none => .null)]

/-! ## Helper lemmas -/

theorem jsOrElse_ne_empty (o : Option String) (d : String) (hd : d ≠ "") :
    jsOrElse o d ≠ "" := by
  cases o with
  | none => simpa [jsOrElse] using hd
  | some s => by_cases hs : s = "" <;> simp [jsOrElse, hs, hd]

theorem mailchimp_handleApiError_message_ne_empty (e : UpstreamError) :
    (MailchimpService.handleApiError e).message ≠ "" := by
  obtain ⟨resp, code⟩ := e
  cases resp with
  | none =>
      simp only [MailchimpService.handleApiError]
      split_ifs <;> simp
  | some r =>
      simp only [MailchimpService.handleApiError]
      split_ifs <;> first
        | exact jsOrElse_ne_empty _ _ (by decide)
        | simp

theorem getresponse_handleApiError_message_ne_empty (e : UpstreamError) :
    (GetResponseService.handleApiError e).message ≠ "" := by
  obtain ⟨resp, code⟩ := e
  cases resp with
  | none =>
      simp only [GetResponseService.handleApiError]
      split_ifs <;> simp
  | some r =>
      simp only [GetResponseService.handleApiError]
      split_ifs <;> first
        | exact jsOrElse_ne_empty _ _ (by decide)
        | simp

/-! ## Claims -/

/-- C7: for both provider adapters and every possible upstream outcome,
validateConnection never raises (it is a total function into
ESPValidationResult): on a successful upstream read it returns
isValid true with the normalized accountInfo payload and no error, and
on any upstream failure it returns isValid false with a nonempty
human-readable error string and no account info. -/
theorem claim7_validate_connection_total :
    ∀ (om : Except UpstreamError MailchimpAccount)
      (og : Except UpstreamError GetResponseAccount),
      (∀ a, om = .ok a → MailchimpService.validateConnection om =
        ⟨true, "mailchimp", none,
          some (.mailchimp a.account_name a.email a.role a.account_id)⟩) ∧
      (∀ e, om = .error e → ∃ msg, msg ≠ "" ∧
        MailchimpService.validateConnection om = ⟨false, "mailchimp", some msg, none⟩) ∧
      (∀ a, og = .ok a → GetResponseService.validateConnection og =
        ⟨true, "getresponse", none,
          some (.getresponse a.accountId a.email a.firstName a.lastName
            a.phone a.state a.zipCode)⟩) ∧
      (∀ e, og = .error e → ∃ msg, msg ≠ "" ∧
        GetResponseService.validateConnection og = ⟨false, "getresponse", some msg, none⟩) := by
  intro om og
  refine ⟨?_, ?_, ?_, ?_⟩
  · rintro a rfl; rfl
  · rintro e rfl
    exact ⟨(MailchimpService.handleApiError e).message,
      mailchimp_handleApiError_message_ne_empty e, rfl⟩
  · rintro a rfl; rfl
  · rintro e rfl
    exact ⟨(GetResponseService.handleApiError e).message,
      getresponse_handleApiError_message_ne_empty e, rfl⟩

/-- C7 witness: the two adapters at one concrete success and one concrete
failure outcome. -/
theorem claim7_witness :
    (MailchimpService.validateConnection
        (.ok ⟨"Acme", "a@b.c", "owner", "acct1"⟩) =
      ⟨true, "mailchimp", none, some (.mailchimp "Acme" "a@b.c" "owner" "acct1")⟩) ∧
    (∃ msg, msg ≠ "" ∧
      GetResponseService.validateConnection (.error ⟨some ⟨401, none, none⟩, none⟩) =
        ⟨false, "getresponse", some msg, none⟩) := by
  have h := claim7_validate_connection_total
    (.ok ⟨"Acme", "a@b.c", "owner", "acct1"⟩) (.error ⟨some ⟨401, none, none⟩, none⟩)
  exact ⟨h.1 _ rfl, h.2.2.2 _ rfl⟩

/-- C8: both adapters translate every upstream failure into a typed
provider-tagged error before it escapes the adapter: status 401 becomes
the 401 unauthorized kind, 404 the 404 not-found kind, 429 the 429
rate-limit kind, a network timeout the 408 timeout kind, a
connection-level failure with no response the 503 service-unavailable
kind, and any other response status a provider error carrying the
upstream status and any nonempty upstream message; the translation is
total, so every failure ends in one of these named kinds. -/
theorem claim8_error_translation_total :
    ∀ e : UpstreamError,
      (∀ r, e.response = some r →
        (r.status = 401 →
          MailchimpService.handleApiError e =
            ⟨"Invalid Mailchimp API key or insufficient permissions", 401,
              "MAILCHIMP_UNAUTHORIZED"⟩ ∧
          GetResponseService.handleApiError e =
            ⟨"Invalid GetResponse API key or insufficient permissions", 401,
              "GETRESPONSE_UNAUTHORIZED"⟩) ∧
        (r.status = 404 →
          (MailchimpService.handleApiError e).statusCode = 404 ∧
          (MailchimpService.handleApiError e).code = "MAILCHIMP_NOT_FOUND" ∧
          (GetResponseService.handleApiError e).statusCode = 404 ∧
          (GetResponseService.handleApiError e).code = "GETRESPONSE_NOT_FOUND") ∧
        (r.status = 429 →
          (MailchimpService.handleApiError e).statusCode = 429 ∧
          (MailchimpService.handleApiError e).code = "MAILCHIMP_RATE_LIMIT" ∧
          (GetResponseService.handleApiError e).statusCode = 429 ∧
          (GetResponseService.handleApiError e).code = "GETRESPONSE_RATE_LIMIT") ∧
        (r.status ≠ 401 → r.status ≠ 404 → r.status ≠ 429 →
          (MailchimpService.handleApiError e).statusCode = r.status ∧
          (GetResponseService.handleApiError e).statusCode = r.status ∧
          (∀ m, r.detail = some m → m ≠ "" →
            (MailchimpService.handleApiError e).message = m) ∧
          (∀ m, r.message = some m → m ≠ "" →
            (GetResponseService.handleApiError e).message = m))) ∧
      (e.response = none → e.code = some "ECONNABORTED" →
        (MailchimpService.handleApiError e).statusCode = 408 ∧
        (GetResponseService.handleApiError e).statusCode = 408) ∧
      (e.response = none → e.code ≠ some "ECONNABORTED" →
        (MailchimpService.handleApiError e).statusCode = 503 ∧
        (GetResponseService.handleApiError e).statusCode = 503) ∧
      ((MailchimpService.handleApiError e).statusCode ∈ ([401, 404, 429, 408, 503] : List Nat) ∨
        ∃ r, e.response = some r ∧ (MailchimpService.handleApiError e).statusCode = r.status) ∧
      ((GetResponseService.handleApiError e).statusCode ∈ ([401, 404, 429, 408, 503] : List Nat) ∨
        ∃ r, e.response = some r ∧ (GetResponseService.handleApiError e).statusCode = r.status) := by
  rintro ⟨resp, code⟩
  refine ⟨?_, ?_, ?_, ?_, ?_⟩
  · rintro r hr
    cases resp with
    | none => simp at hr
    | some r0 =>
        obtain rfl : r = r0 := by simpa using hr.symm
        refine ⟨?_, ?_, ?_, ?_⟩
        · intro h
          constructor <;>
            simp [MailchimpService.handleApiError, GetResponseService.handleApiError, h]
        · intro h
          refine ⟨?_, ?_, ?_, ?_⟩ <;>
            simp [MailchimpService.handleApiError, GetResponseService.handleApiError, h]
        · intro h
          refine ⟨?_, ?_, ?_, ?_⟩ <;>
            simp [MailchimpService.handleApiError, GetResponseService.handleApiError, h]
        · intro h1 h2 h3
          refine ⟨?_, ?_, ?_, ?_⟩
          · simp [MailchimpService.handleApiError, h1, h2, h3]
          · by_cases h4 : r.status = 400 <;>
              simp [GetResponseService.handleApiError, h1, h2, h3, h4]
          · intro m hm hne
            simp [MailchimpService.handleApiError, h1, h2, h3, hm, jsOrElse, hne]
          · intro m hm hne
            by_cases h4 : r.status = 400 <;>
              simp [GetResponseService.handleApiError, h1, h2, h3, h4, hm, jsOrElse, hne]
  · rintro hresp hcode
    cases resp with
    | some r0 => simp at hresp
    | none =>
        have hc : code = some "ECONNABORTED" := hcode
        constructor <;>
          simp [MailchimpService.handleApiError, GetResponseService.handleApiError, hc]
  · rintro hresp hcode
    cases resp with
    | some r0 => simp at hresp
    | none =>
        have hc : ¬(code = some "ECONNABORTED") := hcode
        constructor <;>
          simp [MailchimpService.handleApiError, GetResponseService.handleApiError, hc]
  · cases resp with
    | none =>
        left
        simp only [MailchimpService.handleApiError]
        split_ifs <;> simp
    | some r =>
        right
        refine ⟨r, rfl, ?_⟩
        simp only [MailchimpService.handleApiError]
        split_ifs with h1 h2 h3 <;> simp_all
  · cases resp with
    | none =>
        left
        simp only [GetResponseService.handleApiError]
        split_ifs <;> simp
    | some r =>
        right
        refine ⟨r, rfl, ?_⟩
        simp only [GetResponseService.handleApiError]
        split_ifs with h1 h2 h3 h4 <;> simp_all

/-- C8 witness: a concrete unclassified upstream status is passed through
with its status and message, a concrete timeout maps to 408, and a
concrete connection-level failure maps to 503. -/
theorem claim8_witness :
    (MailchimpService.handleApiError ⟨some ⟨500, some "boom", some "oops"⟩, none⟩).statusCode = 500 ∧
    (MailchimpService.handleApiError ⟨some ⟨500, some "boom", some "oops"⟩, none⟩).message = "boom" ∧
    (GetResponseService.handleApiError ⟨some ⟨500, some "boom", some "oops"⟩, none⟩).message = "oops" ∧
    (MailchimpService.handleApiError ⟨none, some "ECONNABORTED"⟩).statusCode = 408 ∧
    (GetResponseService.handleApiError ⟨none, none⟩).statusCode = 503 := by
  have h1 := claim8_error_translation_total ⟨some ⟨500, some "boom", some "oops"⟩, none⟩
  have h2 := claim8_error_translation_total ⟨none, some "ECONNABORTED"⟩
  have h3 := claim8_error_translation_total ⟨none, none⟩
  have hother := (h1.1 ⟨500, some "boom", some "oops"⟩ rfl).2.2.2
    (by decide) (by decide) (by decide)
  refine ⟨hother.1, ?_, ?_, ?_, ?_⟩
  · exact hother.2.2.1 "boom" rfl (by decide)
  · exact hother.2.2.2 "oops" rfl (by decide)
  · exact (h2.2.1 rfl rfl).1
  · exact (h3.2.2.1 rfl (by simp)).2

/-- A concrete raw Mailchimp list record. -/
def sampleRawMailchimpList : RawMailchimpList :=
  ⟨"list1", "Main audience", some 5, some "https://sub", some "2024-01-01"⟩

/-- C6 counterexample: the claim says both adapters tolerate the
upstream API returning either an array or a keyed mapping; the Mailchimp
adapter maps over response.data.lists directly, so on a keyed mapping it
raises a TypeError instead of normalizing, refuting the claim. -/
theorem claim6_counterexample :
    MailchimpService.getLists (.obj [("0", sampleRawMailchimpList)]) = .error .typeError ∧
    GetResponseService.getLists (.obj [("0", ⟨"c1", "Camp", none, none⟩)]) =
      [⟨"c1", "Camp", "", none⟩] := ⟨rfl, rfl⟩

/-- C6 amended: only the GetResponse adapter tolerates both response
shapes — a keyed mapping normalizes to the same sequence as the array of
its values — while the Mailchimp adapter normalizes the array shape and
fails with a TypeError on a keyed mapping. -/
theorem claim6_lists_shape_amended :
    (∀ entries : List (String × RawCampaign),
      GetResponseService.getLists (.obj entries) =
        GetResponseService.getLists (.arr (entries.map Prod.snd))) ∧
    (∀ items : List RawCampaign,
      GetResponseService.getLists (.arr items) =
        items.map fun c => ⟨c.campaignId, c.name, jsOrElse c.description "", c.createdOn⟩) ∧
    (∀ items : List RawMailchimpList,
      MailchimpService.getLists (.arr items) =
        .ok (items.map fun l =>
          ⟨l.id, l.name, l.stats_member_count.getD 0, l.subscribe_url_long, l.date_created⟩)) ∧
    (∀ entries : List (String × RawMailchimpList),
      MailchimpService.getLists (.obj entries) = .error .typeError) := by
  refine ⟨fun entries => rfl, fun items => rfl, fun items => rfl, fun entries => rfl⟩

/-- The key names of a serialized JSON object. -/
def keysOf (fields : List (String × JVal)) : List String := fields.map Prod.fst

/-- C9: the raw apiKey never appears in any externally visible
serialized representation — the mongoose toJSON transform strips it even
when a query selected it, the create and re-test response literals have
no apiKey field, and every document of the active-record listing is
serialized without it — while internally the raw document carries the key
exactly when a query opted in with the explicit select. -/
theorem claim9_api_key_never_serialized :
    ∀ (r : Integration) (sel : Bool) (d : CreateData) (t : TestData) (store : Store),
      "apiKey" ∉ keysOf (Integration.toJSON r sel) ∧
      "apiKey" ∉ keysOf (CreateData.toJSON d) ∧
      "apiKey" ∉ keysOf (TestData.toJSON t) ∧
      (∀ doc ∈ (getIntegrations store).2.1, "apiKey" ∉ keysOf (Integration.toJSON doc false)) ∧
      ("apiKey", JVal.str r.apiKey) ∈ integrationRawJSON r true ∧
      "apiKey" ∉ keysOf (integrationRawJSON r false) := by
  intro r sel d t store
  refine ⟨?_, ?_, ?_, ?_, ?_, ?_⟩
  · cases sel <;>
      simp [Integration.toJSON, toJSONTransform, integrationRawJSON, keysOf, List.filter_append]
  · simp [CreateData.toJSON, keysOf]
  · simp [TestData.toJSON, keysOf]
  · intro doc _
    simp [Integration.toJSON, toJSONTransform, integrationRawJSON, keysOf, List.filter_append]
  · simp [integrationRawJSON]
  · simp [integrationRawJSON, keysOf]

/-- A concrete stored integration record used by several witnesses. -/
def demoIntegration : Integration :=
  ⟨1, "mailchimp", "aaaaaaaaaaaaaaaaaaaaaaaaaaaaaaaa-us10", some "us10", true, some 3, 1, 2⟩

/-- C9 witness: the serialization claims evaluated on a concrete record,
response payload and store. -/
theorem claim9_witness :
    "apiKey" ∉ keysOf (Integration.toJSON demoIntegration true) ∧
    "apiKey" ∉ keysOf (Integration.toJSON demoIntegration false) ∧
    ("apiKey", JVal.str demoIntegration.apiKey) ∈ integrationRawJSON demoIntegration true := by
  have h := claim9_api_key_never_serialized demoIntegration true
    ⟨1, "mailchimp", some "us10", true, some 3, 1, 2, none⟩
    ⟨true, "mailchimp", none, none, some 3⟩ [demoIntegration]
  have h2 := claim9_api_key_never_serialized demoIntegration false
    ⟨1, "mailchimp", some "us10", true, some 3, 1, 2, none⟩
    ⟨true, "mailchimp", none, none, some 3⟩ [demoIntegration]
  exact ⟨h.1, h2.1, h.2.2.2.2.1⟩

theorem errEntry_mem_fetchEntries {α : Type} (fetch : Integration → Except AppError (List α))
    (ints : List Integration) (i : Integration) (hi : i ∈ ints) (e : AppError)
    (hf : fetch i = .error e) :
    ListEntry.errEntry i.provider i._id "Failed to fetch lists from this provider" ∈
      fetchEntries fetch ints := by
  induction ints with
  | nil => cases hi
  | cons a rest ih =>
      simp only [fetchEntries]
      rcases List.mem_cons.mp hi with rfl | hmem
      · rw [hf]
        exact List.mem_append_left _ (by simp)
      · exact List.mem_append_right _ (ih hmem)

theorem item_mem_fetchEntries {α : Type} (fetch : Integration → Except AppError (List α))
    (ints : List Integration) (i : Integration) (hi : i ∈ ints) (ls : List α)
    (hf : fetch i = .ok ls) (l : α) (hl : l ∈ ls) :
    ListEntry.item l i.provider i._id ∈ fetchEntries fetch ints := by
  induction ints with
  | nil => cases hi
  | cons a rest ih =>
      simp only [fetchEntries]
      rcases List.mem_cons.mp hi with rfl | hmem
      · rw [hf]
        exact List.mem_append_left _ (List.mem_map_of_mem _ hl)
      · exact List.mem_append_right _ (ih hmem)

theorem getESPLists_eq_of_valid {α : Type} (store : Store) (pf : Option String)
    (fetch : Integration → Except AppError (List α))
    (hpf : pf = none ∨ pf = some "mailchimp" ∨ pf = some "getresponse") :
    getESPLists store pf fetch =
      if (activeMatching store pf).length = 0 then
        .error ⟨(match pf with
                 | some p => s!"No active {p} integrations found"
                 | none => "No active integrations found"),
          404, "NO_INTEGRATIONS"⟩
      else
        .ok (200, ⟨fetchEntries fetch (activeMatching store pf),
          (fetchEntries fetch (activeMatching store pf)).length,
          setDedup ((fetchEntries fetch (activeMatching store pf)).map
            ListEntry.providerOf)⟩) := by
  rcases hpf with rfl | rfl | rfl <;> rfl

/-- C2: over a non-empty set of matching active integrations the
aggregate fetch succeeds even when an integration's getLists fails —
that integration contributes an error-marker entry tagged with its
provider and record id while every other integration's lists are still
returned — whereas an empty matching set fails with the 404
no-integrations condition instead of an empty success. -/
theorem claim2_aggregate_partial_failure {α : Type} (store : Store)
    (pf : Option String) (fetch : Integration → Except AppError (List α))
    (hpf : pf = none ∨ pf = some "mailchimp" ∨ pf = some "getresponse") :
    (activeMatching store pf ≠ [] →
      ∃ d, getESPLists store pf fetch = .ok (200, d) ∧
        (∀ i ∈ activeMatching store pf, ∀ e, fetch i = .error e →
          ListEntry.errEntry i.provider i._id "Failed to fetch lists from this provider" ∈
            d.lists) ∧
        (∀ i ∈ activeMatching store pf, ∀ ls, fetch i = .ok ls → ∀ l ∈ ls,
          ListEntry.item l i.provider i._id ∈ d.lists)) ∧
    (activeMatching store pf = [] →
      ∃ e, getESPLists (α := α) store pf fetch = .error e ∧
        e.statusCode = 404 ∧ e.code = "NO_INTEGRATIONS") := by
  rw [getESPLists_eq_of_valid store pf fetch hpf]
  constructor
  · intro hne
    have hz : ¬((activeMatching store pf).length = 0) := by
      simpa [List.length_eq_zero] using hne
    rw [if_neg hz]
    refine ⟨_, rfl, ?_, ?_⟩
    · intro i hi e hf
      exact errEntry_mem_fetchEntries fetch _ i hi e hf
    · intro i hi ls hf l hl
      exact item_mem_fetchEntries fetch _ i hi ls hf l hl
  · intro hempty
    rw [if_pos (by simp [hempty])]
    exact ⟨_, rfl, rfl, rfl⟩

/-- A second concrete stored record, a getresponse integration. -/
def demoGetResponseIntegration : Integration :=
  ⟨2, "getresponse", "abc123abc123abc123ab", none, true, some 4, 1, 2⟩

/-- A store with one active integration per provider. -/
def demoStore2 : Store := [demoIntegration, demoGetResponseIntegration]

/-- A concrete adapter failure. -/
def demoAppError : AppError :=
  ⟨"GetResponse service unavailable", 503, "GETRESPONSE_SERVICE_ERROR"⟩

/-- A concrete per-integration fetch outcome: the mailchimp record
yields one list, the getresponse record fails. -/
def demoFetch : Integration → Except AppError (List String) :=
  fun i => if i._id = 1 then .ok ["Main audience"] else .error demoAppError

/-- C2 witness: on the concrete two-integration store where the
getresponse fetch fails, the aggregate call succeeds and contains both
the error marker and the other provider's list. -/
theorem claim2_witness :
    ∃ d, getESPLists demoStore2 none demoFetch = .ok (200, d) ∧
      ListEntry.errEntry "getresponse" 2 "Failed to fetch lists from this provider" ∈
        d.lists ∧
      ListEntry.item "Main audience" "mailchimp" 1 ∈ d.lists := by
  obtain ⟨d, hd, herr, hitem⟩ :=
    (claim2_aggregate_partial_failure demoStore2 none demoFetch (Or.inl rfl)).1 (by decide)
  exact ⟨d, hd,
    herr demoGetResponseIntegration (by decide) demoAppError rfl,
    hitem demoIntegration (by decide) ["Main audience"] rfl "Main audience" (by decide)⟩

/-- C10: in every successful aggregate response the reported totalCount
is the length of the combined entries array, in which each failing
integration contributes exactly one error marker — so totalCount is the
number of fetched mailing lists plus the number of failed
integrations, not the number of lists alone. -/
theorem claim10_total_count {α : Type} (store : Store) (pf : Option String)
    (fetch : Integration → Except AppError (List α)) (status : Nat) (d : ListsData α)
    (h : getESPLists store pf fetch = .ok (status, d)) :
    d.totalCount = d.lists.length ∧
    d.totalCount =
      ((activeMatching store pf).map fun i =>
        match fetch i with | .ok ls => ls.length | .error _ => 0).sum +
      ((activeMatching store pf).countP fun i =>
        match fetch i with | .ok _ => false | .error _ => true) := by
  have hlen : ∀ ints : List Integration, (fetchEntries fetch ints).length =
      (ints.map fun i => match fetch i with | .ok ls => ls.length | .error _ => 0).sum +
      ints.countP (fun i => match fetch i with | .ok _ => false | .error _ => true) := by
    intro ints
    induction ints with
    | nil => simp [fetchEntries]
    | cons a rest ih =>
        cases hfa : fetch a <;>
          simp [fetchEntries, hfa, ih, List.countP_cons] <;> omega
  have hvalid : pf = none ∨ pf = some "mailchimp" ∨ pf = some "getresponse" := by
    rcases pf with _ | p
    · exact Or.inl rfl
    · by_cases h1 : p = "mailchimp"
      · exact Or.inr (Or.inl (by rw [h1]))
      · by_cases h2 : p = "getresponse"
        · exact Or.inr (Or.inr (by rw [h2]))
        · exfalso
          simp [getESPLists, h1, h2] at h
  rw [getESPLists_eq_of_valid store pf fetch hvalid] at h
  by_cases hz : (activeMatching store pf).length = 0
  · rw [if_pos hz] at h
    cases h
  · rw [if_neg hz] at h
    rw [Except.ok.injEq, Prod.mk.injEq] at h
    obtain ⟨-, hd⟩ := h
    rw [← hd]
    exact ⟨rfl, hlen _⟩

/-- The aggregate response computed on the concrete store and fetch of
the C2 witness. -/
def demoListsData : ListsData String :=
  ⟨[.item "Main audience" "mailchimp" 1,
    .errEntry "getresponse" 2 "Failed to fetch lists from this provider"], 2,
   ["mailchimp", "getresponse"]⟩

/-- C10 witness: on the concrete aggregate response with one success and
one failure, totalCount equals the entry count, which is one list plus
one error marker. -/
theorem claim10_witness :
    demoListsData.totalCount = demoListsData.lists.length ∧
    demoListsData.totalCount =
      ((activeMatching demoStore2 none).map fun i =>
        match demoFetch i with | .ok ls => ls.length | .error _ => 0).sum +
      ((activeMatching demoStore2 none).countP fun i =>
        match demoFetch i with | .ok _ => false | .error _ => true) := by
  exact claim10_total_count demoStore2 none demoFetch 200 demoListsData (by rfl)

/-- C3: for every syntactically invalid API key the create-or-verify
flow fails with a 400 validation error strictly before any adapter
network call and before anything is persisted — the outbound trace is
empty and the store is unchanged. -/
theorem claim3_invalid_key_rejected_before_network
    (store : Store) (provider apiKey : String) (vres : ESPValidationResult)
    (now freshId : Nat)
    (hbad : ESPServiceFactory.validateApiKeyFormat provider apiKey = false) :
    (∃ e, (createESPIntegration store provider apiKey vres now freshId).result =
        .error (.app e) ∧ e.statusCode = 400) ∧
    (createESPIntegration store provider apiKey vres now freshId).store = store ∧
    (createESPIntegration store provider apiKey vres now freshId).trace = [] := by
  cases hdc : dataCenterCheck provider apiKey with
  | error e =>
      have he : e = mailchimpKeyError := by
        unfold dataCenterCheck at hdc
        split_ifs at hdc
        · cases hx : ESPServiceFactory.extractDataCenterFromMailchimpKey apiKey with
          | none =>
              simp only [hx] at hdc
              exact (Except.error.inj hdc).symm
          | some dc =>
              simp only [hx] at hdc
              split_ifs at hdc
              exact (Except.error.inj hdc).symm
      subst he
      refine ⟨⟨mailchimpKeyError, ?_, rfl⟩, ?_, ?_⟩ <;>
        simp [createESPIntegration, hdc]
  | ok dcOpt =>
      refine ⟨⟨⟨s!"Invalid {provider} API key format", 400,
        "INVALID_API_KEY_FORMAT"⟩, ?_, rfl⟩, ?_, ?_⟩ <;>
        simp [createESPIntegration, hdc, hbad]

/-- C3 witness: a too-short getresponse key is rejected with a 400
before any adapter call and nothing is stored. -/
theorem claim3_witness :
    (∃ e, (createESPIntegration [demoIntegration] "getresponse" "short"
        ⟨true, "getresponse", none, none⟩ 5 7).result =
        .error (.app e) ∧ e.statusCode = 400) ∧
    (createESPIntegration [demoIntegration] "getresponse" "short"
        ⟨true, "getresponse", none, none⟩ 5 7).store = [demoIntegration] ∧
    (createESPIntegration [demoIntegration] "getresponse" "short"
        ⟨true, "getresponse", none, none⟩ 5 7).trace = [] :=
  claim3_invalid_key_rejected_before_network [demoIntegration] "getresponse" "short"
    ⟨true, "getresponse", none, none⟩ 5 7 (by decide)

/-- C4: on a successful create-or-verify submission, if no active record
exists for the provider a new active record with a populated
verification timestamp is appended and the response status is 201; if an
active record exists, that same record (same id) is updated in place —
the store keeps its length and contains the record with the new key and
timestamp — and the response status is 200, so created versus updated is
observable to the caller. -/
theorem claim4_created_vs_updated_observable
    (store : Store) (provider apiKey : String) (vres : ESPValidationResult)
    (now freshId : Nat)
    (hFormat : ESPServiceFactory.validateApiKeyFormat provider apiKey = true)
    (hDC : provider = "mailchimp" →
      ∃ dc, ESPServiceFactory.extractDataCenterFromMailchimpKey apiKey = some dc ∧ dc ≠ "")
    (hValid : vres.isValid = true) :
    (findOneActive store provider = none →
      ∃ d, (createESPIntegration store provider apiKey vres now freshId).result =
          .ok (201, d) ∧
        d.id = freshId ∧ d.isActive = true ∧ d.lastVerified = some now ∧
        ∃ fresh, (createESPIntegration store provider apiKey vres now freshId).store =
            store ++ [fresh] ∧
          fresh._id = freshId ∧ fresh.provider = provider ∧ fresh.isActive = true ∧
          fresh.lastVerified = some now ∧ fresh.apiKey = apiKey) ∧
    (∀ ex, findOneActive store provider = some ex →
      ∃ d, (createESPIntegration store provider apiKey vres now freshId).result =
          .ok (200, d) ∧
        d.id = ex._id ∧ d.isActive = true ∧ d.lastVerified = some now ∧
        (createESPIntegration store provider apiKey vres now freshId).store.length =
          store.length ∧
        ∃ upd, upd ∈ (createESPIntegration store provider apiKey vres now freshId).store ∧
          upd._id = ex._id ∧ upd.apiKey = apiKey ∧ upd.lastVerified = some now ∧
          upd.isActive = true) := by
  have hActive : ∀ ex, findOneActive store provider = some ex → ex.isActive = true := by
    intro ex hex
    have hex2 : store.find? (fun (r : Integration) => r.provider == provider && r.isActive) =
        some ex := hex
    have h2 := List.find?_some hex2
    simp only [Bool.and_eq_true, beq_iff_eq] at h2
    exact h2.2
  obtain ⟨dcOpt, hdcEq⟩ : ∃ dcOpt, dataCenterCheck provider apiKey = .ok dcOpt := by
    by_cases hm : provider = "mailchimp"
    · obtain ⟨dc, hdc, hne⟩ := hDC hm
      exact ⟨some dc, by simp [dataCenterCheck, hm, hdc, hne]⟩
    · exact ⟨none, by simp [dataCenterCheck, hm]⟩
  constructor
  · intro hfind
    refine ⟨⟨freshId, provider, dcOpt, true, some now, now, now, vres.accountInfo⟩,
      ?_, rfl, rfl, rfl,
      ⟨freshId, provider, apiKey, dcOpt, true, some now, now, now⟩,
      ?_, rfl, rfl, rfl, rfl, rfl⟩ <;>
      simp [createESPIntegration, hdcEq, hFormat, hValid, hfind, mkCreateData]
  · intro ex hfind
    have hfind2 : store.find? (fun (r : Integration) => r.provider == provider && r.isActive) =
        some ex := hfind
    have hmem : ex ∈ store := List.mem_of_find?_eq_some hfind2
    have hexActive : ex.isActive = true := hActive ex hfind
    refine ⟨⟨ex._id, ex.provider, dcOpt, ex.isActive, some now, ex.createdAt, now,
      vres.accountInfo⟩, ?_, rfl, hexActive, rfl, ?_, ?_⟩
    · simp [createESPIntegration, hdcEq, hFormat, hValid, hfind, mkCreateData]
    · simp [createESPIntegration, hdcEq, hFormat, hValid, hfind]
    · refine ⟨{ ex with
          apiKey := apiKey, dataCenter := dcOpt,
          lastVerified := some now, updatedAt := now }, ?_, rfl, rfl, rfl, hexActive⟩
      have hmapped := List.mem_map_of_mem (f := fun r =>
        if r._id = ex._id then
          { r with
            apiKey := apiKey, dataCenter := dcOpt,
            lastVerified := some now, updatedAt := now }
        else r) hmem
      simp only [createESPIntegration, hdcEq, hFormat, hValid, hfind]
      simpa using hmapped

/-- The valid getresponse connection outcome used by witnesses. -/
def demoValidGR : ESPValidationResult :=
  ⟨true, "getresponse", none, some (.getresponse "a" "e" "f" "l" "p" "s" "z")⟩

/-- C4 witness: submitting a fresh valid getresponse key against an
empty store creates a new active record and responds 201. -/
theorem claim4_witness :
    ∃ d, (createESPIntegration [] "getresponse" "abc123abc123abc123ab"
        demoValidGR 5 7).result = .ok (201, d) ∧
      d.id = 7 ∧ d.isActive = true ∧ d.lastVerified = some 5 ∧
      ∃ fresh, (createESPIntegration [] "getresponse" "abc123abc123abc123ab"
          demoValidGR 5 7).store = [] ++ [fresh] ∧
        fresh._id = 7 ∧ fresh.provider = "getresponse" ∧ fresh.isActive = true ∧
        fresh.lastVerified = some 5 ∧ fresh.apiKey = "abc123abc123abc123ab" :=
  (claim4_created_vs_updated_observable [] "getresponse" "abc123abc123abc123ab"
    demoValidGR 5 7 (by decide) (fun h => absurd h (by decide)) rfl).1 rfl

/-- C5 counterexample: the claim says the validation outcome is always
returned regardless of whether persisting the refreshed timestamp
succeeded; but on an active record with a valid connection outcome whose
save fails, the awaited save is outside any try/catch, so the run ends
in the escaped storage failure and no outcome is returned. -/
theorem claim5_counterexample :
    demoIntegration.isActive = true ∧ demoValidGR.isValid = true ∧
    (testIntegration [demoIntegration] 1 demoValidGR false 9).result =
      .error .storage :=
  ⟨rfl, rfl, rfl⟩

/-- C5 amended: re-testing a missing or inactive record fails with the
404 not-found error; on a found active record the adapter is invoked,
and the validation outcome is returned whenever no persistence was
attempted (invalid outcome) or persistence succeeded — with the
timestamp refreshed and persisted on a valid outcome — but when
persisting the refreshed timestamp fails, the run ends in that storage
failure instead of returning the outcome. -/
theorem claim5_retest_amended (store : Store) (id : Nat)
    (vres : ESPValidationResult) (saveOk : Bool) (now : Nat) :
    (findById store id = none →
      (testIntegration store id vres saveOk now).result =
        .error (.app ⟨"Integration not found or inactive", 404, "INTEGRATION_NOT_FOUND"⟩) ∧
      (testIntegration store id vres saveOk now).store = store ∧
      (testIntegration store id vres saveOk now).trace = []) ∧
    (∀ r, findById store id = some r → r.isActive = false →
      (testIntegration store id vres saveOk now).result =
        .error (.app ⟨"Integration not found or inactive", 404, "INTEGRATION_NOT_FOUND"⟩) ∧
      (testIntegration store id vres saveOk now).store = store) ∧
    (∀ r, findById store id = some r → r.isActive = true →
      (testIntegration store id vres saveOk now).trace =
        [.adapterValidateConnection r.provider]) ∧
    (∀ r, findById store id = some r → r.isActive = true → vres.isValid = true →
      saveOk = true →
      (testIntegration store id vres saveOk now).result =
        .ok (200, ⟨vres.isValid, vres.provider, vres.error, vres.accountInfo, some now⟩) ∧
      ∃ x ∈ (testIntegration store id vres saveOk now).store,
        x._id = id ∧ x.lastVerified = some now) ∧
    (∀ r, findById store id = some r → r.isActive = true → vres.isValid = false →
      (testIntegration store id vres saveOk now).result =
        .ok (200, ⟨vres.isValid, vres.provider, vres.error, vres.accountInfo,
          r.lastVerified⟩) ∧
      (testIntegration store id vres saveOk now).store = store) ∧
    (∀ r, findById store id = some r → r.isActive = true → vres.isValid = true →
      saveOk = false →
      (testIntegration store id vres saveOk now).result = .error .storage) := by
  refine ⟨?_, ?_, ?_, ?_, ?_, ?_⟩
  · intro hfind
    refine ⟨?_, ?_, ?_⟩ <;> simp [testIntegration, hfind]
  · intro r hfind hina
    refine ⟨?_, ?_⟩ <;> simp [testIntegration, hfind, hina]
  · intro r hfind hact
    cases hv : vres.isValid <;> cases saveOk <;>
      simp [testIntegration, hfind, hact, hv]
  · intro r hfind hact hv hs
    subst hs
    have hfind2 : store.find? (fun (x : Integration) => x._id == id) = some r := hfind
    have hid : r._id = id := by
      have h2 := List.find?_some hfind2
      simpa using h2
    have hmem : r ∈ store := List.mem_of_find?_eq_some hfind2
    constructor
    · simp [testIntegration, hfind, hact, hv]
    · have hmapped := List.mem_map_of_mem
        (f := fun x => if x._id = id then
          { x with lastVerified := some now, updatedAt := now } else x) hmem
      refine ⟨{ r with lastVerified := some now, updatedAt := now }, ?_, hid, rfl⟩
      simp only [testIntegration, hfind, hact, hv]
      simpa [hid, hact] using hmapped
  · intro r hfind hact hv
    refine ⟨?_, ?_⟩ <;> simp [testIntegration, hfind, hact, hv]
  · intro r hfind hact hv hs
    subst hs
    simp [testIntegration, hfind, hact, hv]

/-- C5 witness: re-testing a nonexistent id on a concrete store fails
with the 404 not-found error and changes nothing. -/
theorem claim5_witness :
    (testIntegration [demoIntegration] 42 demoValidGR true 9).result =
      .error (.app ⟨"Integration not found or inactive", 404, "INTEGRATION_NOT_FOUND"⟩) ∧
    (testIntegration [demoIntegration] 42 demoValidGR true 9).store = [demoIntegration] ∧
    (testIntegration [demoIntegration] 42 demoValidGR true 9).trace = [] :=
  (claim5_retest_amended [demoIntegration] 42 demoValidGR true 9).1 (by decide)

/-- The per-provider uniqueness invariant: for each provider value the
store holds at most one active record. -/
def atMostOneActivePerProvider (store : Store) : Prop :=
  ∀ p : String, (store.filter fun r => r.provider == p && r.isActive).length ≤ 1

theorem length_filter_map_eq (f : Integration → Integration) (q : Integration → Bool)
    (hq : ∀ r, q (f r) = q r) (s : Store) :
    ((s.map f).filter q).length = (s.filter q).length := by
  induction s with
  | nil => rfl
  | cons a t ih =>
      cases h : q a with
      | true =>
          have hf : q (f a) = true := by rw [hq a, h]
          simp [List.filter_cons, h, hf, ih]
      | false =>
          have hf : q (f a) = false := by rw [hq a, h]
          simp [List.filter_cons, h, hf, ih]

theorem length_filter_map_le (f : Integration → Integration) (q : Integration → Bool)
    (hq : ∀ r, q (f r) = true → q r = true) (s : Store) :
    ((s.map f).filter q).length ≤ (s.filter q).length := by
  induction s with
  | nil => exact Nat.le_refl _
  | cons a t ih =>
      cases hf : q (f a) with
      | true =>
          have h : q a = true := hq a hf
          simp only [List.map_cons, List.filter_cons, h, hf, if_pos, List.length_cons]
          exact Nat.succ_le_succ ih
      | false =>
          cases h : q a with
          | true =>
              simp only [List.map_cons, List.filter_cons, h, hf, List.length_cons]
              simp only [Bool.false_eq_true, if_false, if_pos]
              exact Nat.le_trans ih (Nat.le_succ _)
          | false =>
              simp only [List.map_cons, List.filter_cons, h, hf, Bool.false_eq_true, if_false]
              exact ih

/-- C1: every operation of the integration service — create-or-verify,
re-test, deactivate — preserves the invariant that each provider has at
most one active record: creation mutates the existing active record in
place when one exists and only inserts when none does, and deactivation
merely flips isActive to false without deleting. -/
theorem claim1_at_most_one_active_per_provider (store : Store)
    (hinv : atMostOneActivePerProvider store)
    (provider apiKey : String) (vres : ESPValidationResult) (now freshId : Nat)
    (id now2 id3 : Nat) (vres3 : ESPValidationResult) (saveOk : Bool) (now3 : Nat) :
    atMostOneActivePerProvider
      (createESPIntegration store provider apiKey vres now freshId).store ∧
    atMostOneActivePerProvider (deleteIntegration store id now2).store ∧
    atMostOneActivePerProvider (testIntegration store id3 vres3 saveOk now3).store := by
  refine ⟨?_, ?_, ?_⟩
  · cases hdc : dataCenterCheck provider apiKey with
    | error e => simpa [createESPIntegration, hdc] using hinv
    | ok dcOpt =>
        by_cases hfmt : ESPServiceFactory.validateApiKeyFormat provider apiKey = false
        · simpa [createESPIntegration, hdc, hfmt] using hinv
        · cases hv : vres.isValid with
          | false => simpa [createESPIntegration, hdc, hfmt, hv] using hinv
          | true =>
              cases hfind : findOneActive store provider with
              | some ex =>
                  intro p
                  simp only [createESPIntegration, hdc, hfmt, hv, hfind]
                  simp only [Bool.true_eq_false, if_false, ite_false, Bool.false_eq_true]
                  rw [length_filter_map_eq]
                  · exact hinv p
                  · intro r
                    by_cases hr : r._id = ex._id <;> simp [hr]
              | none =>
                  intro p
                  simp only [createESPIntegration, hdc, hfmt, hv, hfind]
                  simp only [Bool.true_eq_false, if_false, ite_false, Bool.false_eq_true]
                  rw [List.filter_append, List.length_append]
                  by_cases hp : p = provider
                  · subst hp
                    have hfind2 : store.find?
                        (fun (r : Integration) => r.provider == p && r.isActive) = none := hfind
                    have hnil : store.filter (fun r => r.provider == p && r.isActive) = [] := by
                      rw [List.filter_eq_nil_iff]
                      intro x hx
                      have hno := List.find?_eq_none.mp hfind2 x hx
                      simpa using hno
                    rw [hnil]
                    simp
                  · have hfresh : ((⟨freshId, provider, apiKey, dcOpt, true, some now, now,
                        now⟩ : Integration).provider == p && true) = false := by
                      simp [Ne.symm hp]
                    simp only [List.filter_cons, List.filter_nil]
                    rw [if_neg (by simpa using hfresh)]
                    simpa using hinv p
  · cases hfind : findById store id with
    | none => simpa [deleteIntegration, hfind] using hinv
    | some r =>
        intro p
        simp only [deleteIntegration, hfind]
        refine Nat.le_trans (length_filter_map_le _ _ ?_ store) (hinv p)
        intro x hx
        by_cases hxi : x._id = id
        · simp [hxi] at hx
        · simpa [hxi] using hx
  · cases hfind : findById store id3 with
    | none => simpa [testIntegration, hfind] using hinv
    | some r =>
        cases hact : r.isActive with
        | false => simpa [testIntegration, hfind, hact] using hinv
        | true =>
            cases hv : vres3.isValid with
            | false => simpa [testIntegration, hfind, hact, hv] using hinv
            | true =>
                cases saveOk with
                | false => simpa [testIntegration, hfind, hact, hv] using hinv
                | true =>
                    intro p
                    simp only [testIntegration, hfind, hact, hv]
                    simp only [eq_self_iff_true, if_true, ite_true, Bool.true_eq_false,
                      if_false, ite_false]
                    rw [length_filter_map_eq]
                    · exact hinv p
                    · intro x
                      by_cases hxi : x._id = id3 <;> simp [hxi]

/-- C1 witness: the invariant holds for the empty store and is preserved
by a concrete create, delete and re-test run on it. -/
theorem claim1_witness :
    atMostOneActivePerProvider
      (createESPIntegration [] "getresponse" "abc123abc123abc123ab" demoValidGR 5 7).store ∧
    atMostOneActivePerProvider (deleteIntegration [] 1 6).store ∧
    atMostOneActivePerProvider (testIntegration [] 1 demoValidGR true 6).store :=
  claim1_at_most_one_active_per_provider [] (fun p => by simp)
    "getresponse" "abc123abc123abc123ab" demoValidGR 5 7 1 6 1 demoValidGR true 6

end ESPApi
